import Mathlib

/-!
Verification of the DNS record reconciliation core of the
`terraform-provider-lws` repository, shallowly embedded in Lean.

The embedding follows the newest revision of the sources:
  * the resource layer (`DNSRecordResource.Create/Read/Update/Delete`)
    from the current `resource_dns_record.go`;
  * the client layer (`LWSClient.makeRequest`, `CreateDNSRecord`,
    `GetDNSRecord`, `findDNSRecordByName`) from the current
    `internal/client/client.go`.

Remote HTTP interactions are abstracted as explicit oracle values
(`Except String _` responses handed to each operation), and the
operations additionally return the list of remote calls they issued,
so that claims about the number and kind of remote mutations can be
stated.  Go `int` is modelled as `Int`, Go strings as `String`.
`strings.TrimSpace` / `ToLower` / `ToUpper` are modelled by the
char-list functions `strTrim` / `strToLower` / `strToUpper` (they agree
with Go on the ASCII inputs of every concrete example in this file).
-/

/-- Whether `pat` occurs as a contiguous run inside the character list. -/
def charsContain (pat : List Char) : List Char → Bool
  | [] => pat.isEmpty
  | c :: rest => pat.isPrefixOf (c :: rest) || charsContain pat rest

/-- `strings.Contains s pat` from the Go standard library. -/
def strContains (s pat : String) : Bool :=
  charsContain pat.toList s.toList

/-- Whether a character is trimmed by `strings.TrimSpace` (the ASCII
whitespace relevant to this code base). -/
def isSpaceChar (c : Char) : Bool :=
  c == ' ' || c == '\t' || c == '\n' || c == '\r'

/-- `strings.TrimSpace`: strip leading and trailing whitespace. -/
def strTrim (s : String) : String :=
  ⟨((s.data.dropWhile isSpaceChar).reverse.dropWhile isSpaceChar).reverse⟩

/-- `strings.ToLower` (ASCII). -/
def strToLower (s : String) : String :=
  ⟨s.data.map Char.toLower⟩

/-- `strings.ToUpper` (ASCII). -/
def strToUpper (s : String) : String :=
  ⟨s.data.map Char.toUpper⟩

/-- Name normalization used by the identity search in `Create`:
`strings.ToLower(strings.TrimSpace(x))`. -/
def normName (s : String) : String :=
  strToLower (strTrim s)

/-- Type normalization used by the identity search in `Create`:
`strings.ToUpper(strings.TrimSpace(x))`. -/
def normType (s : String) : String :=
  strToUpper (strTrim s)

/-- Digits of a decimal literal, `none` when empty or non-numeric. -/
def digitsToNat? (cs : List Char) : Option Nat :=
  if cs = [] then none
  else if cs.all Char.isDigit then
    some (cs.foldl (fun n c => n * 10 + (c.toNat - '0'.toNat)) 0)
  else none

/-- `strconv.Atoi`: optional sign followed by at least one digit.
(The overflow saturation of the 64-bit Go version is irrelevant to the
claims and is not modelled.) -/
def goAtoi (s : String) : Option Int :=
  match s.toList with
  | [] => none
  | '+' :: rest => (digitsToNat? rest).map Int.ofNat
  | '-' :: rest => (digitsToNat? rest).map (fun n => -(Int.ofNat n))
  | cs => (digitsToNat? cs).map Int.ofNat

/-- `client.DNSRecord`: id, name, type, value, ttl, zone. -/
structure DNSRecord where
  id : Int
  name : String
  type : String
  value : String
  ttl : Int
  zone : String
deriving DecidableEq, Repr

/-- `client.DNSZone`: a zone name with its record list. -/
structure DNSZone where
  name : String
  records : List DNSRecord
deriving DecidableEq, Repr

/-- `DNSRecordResourceModel`: the Terraform plan/state data.  `id`,
`name`, `type`, `value`, `zone` are `types.String`; `ttl` is a nullable
`types.Int64`. -/
structure RecordState where
  id : String
  name : String
  type : String
  value : String
  ttl : Option Int
  zone : String
deriving DecidableEq, Repr

/-- The normalized identity comparison of `Create`'s pre-existing-record
search: lower-cased/trimmed names and upper-cased/trimmed types must both
agree. -/
def nameTypeMatchNorm (existing target : DNSRecord) : Bool :=
  normName existing.name == normName target.name &&
    normType existing.type == normType target.type

/-- The comparison used by the conflict-recovery fallback search in
`Create`: the normalized comparison, or exact equality of name and
type. -/
def conflictRecoveryMatch (existing target : DNSRecord) : Bool :=
  nameTypeMatchNorm existing target ||
    (existing.name == target.name && existing.type == target.type)

/-- The exact (non-normalized) comparison used by both drift-recovery
searches in `Read` and by `findDNSRecordByName` in the client. -/
def nameTypeMatchExact (r : DNSRecord) (recordName recordType : String) : Bool :=
  r.name == recordName && r.type == recordType

/-- The conflict classifier applied to a failed create call in
`Create`: `cannot add record`, `record invalid`, `already exists`,
`duplicate`, matched case-insensitively. -/
def isConflictError (e : String) : Bool :=
  let errorMsg := strToLower e
  strContains errorMsg "cannot add record" ||
    strContains errorMsg "record invalid" ||
    strContains errorMsg "already exists" ||
    strContains errorMsg "duplicate"

/-- The not-found classifier applied to a failed `GetDNSRecord` call in
`Read`: `not found` or `record with id`, matched case-insensitively. -/
def isReadNotFoundError (e : String) : Bool :=
  let errorMsg := strToLower e
  strContains errorMsg "not found" || strContains errorMsg "record with id"

/-! ## Client layer -/

/-- `LWSClient.findDNSRecordByName`: fetch the zone and return the first
record whose name and type are exactly equal to the requested ones, with
the zone field set to the caller's zone name. -/
def findDNSRecordByName (zoneFetch : Except String DNSZone)
    (zoneName recordName recordType : String) : Except String DNSRecord :=
  match zoneFetch with
  | .error e =>
      .error ("error getting DNS zone '" ++ zoneName ++ "': " ++ e)
  | .ok zone =>
      match zone.records.find? (fun r => nameTypeMatchExact r recordName recordType) with
      | some r => .ok { r with zone := zoneName }
      | none =>
          .error ("DNS record with name '" ++ recordName ++ "' and type '" ++
            recordType ++ "' not found in zone '" ++ zoneName ++ "'")

/-- Oracle for `LWSClient.CreateDNSRecord`: the parsed record echoed by a
successful POST (or the request/API error), and the zone list returned
by the follow-up fetch. -/
structure ClientCreateEnv where
  postResp : Except String DNSRecord
  zoneFetch : Except String DNSZone

/-- `LWSClient.CreateDNSRecord`: POST the record; on success overwrite
the echoed zone with the caller's zone, then unconditionally search the
re-fetched zone by exact (name, type) to discover the identifier, which
replaces whatever identifier the POST echoed.  A failed follow-up makes
the whole call fail even though the record was created remotely. -/
def CreateDNSRecord (record : DNSRecord) (env : ClientCreateEnv) :
    Except String DNSRecord :=
  match env.postResp with
  | .error e => .error e
  | .ok echoed =>
      let createdRecord := { echoed with zone := record.zone }
      match findDNSRecordByName env.zoneFetch record.zone record.name record.type with
      | .error e =>
          .error ("record was created but failed to retrieve its ID: " ++ e)
      | .ok foundRecord =>
          .ok { createdRecord with id := foundRecord.id }

/-- `LWSClient.GetDNSRecord`: fetch the whole zone, coerce the requested
identifier with `strconv.Atoi` (defaulting silently to `0` when empty or
non-numeric), and return the first record with that identifier, its zone
field set to the domain. -/
def GetDNSRecord (domain recordID : String)
    (zoneFetch : Except String DNSZone) : Except String DNSRecord :=
  match zoneFetch with
  | .error e => .error e
  | .ok zone =>
      let recordIDInt : Int :=
        if recordID == "" then 0
        else match goAtoi recordID with
          | some i => i
          | none => 0
      match zone.records.find? (fun r => r.id == recordIDInt) with
      | some r => .ok { r with zone := domain }
      | none =>
          .error ("record with ID " ++ recordID ++ " not found in domain " ++ domain)

/-! ## The retry loop of `LWSClient.makeRequest` -/

/-- A response body: either JSON that parses to an `LWSAPIResponse`
(code and info), or a raw payload that does not. -/
inductive HttpBody where
  | jsonBody (code : Int) (info : String)
  | rawBody (content : String)
deriving DecidableEq, Repr

/-- The outcome of one HTTP attempt: a transport-level failure from
`client.Do`, or a response with a status code and body. -/
inductive Attempt where
  | transportErr (msg : String)
  | httpResp (status : Nat) (body : HttpBody)
deriving DecidableEq, Repr

/-- The loop's break condition `err == nil && resp.StatusCode < 400`.
Note that the body is not consulted. -/
def attemptOk : Attempt → Bool
  | .transportErr _ => false
  | .httpResp status _ => decide (status < 400)

/-- The retry loop of `makeRequest`, with `budget = retries - retry`
remaining retries.  Attempt `retry` is issued; on success the loop
breaks; on failure it retries while budget remains, else breaks with the
failed attempt.  Returns the total number of attempts issued and the
final attempt. -/
def retryLoopGo (f : Nat → Attempt) (retry : Nat) : Nat → Nat × Attempt
  | 0 => (retry + 1, f retry)
  | budget + 1 =>
      let a := f retry
      if attemptOk a then (retry + 1, a)
      else retryLoopGo f (retry + 1) budget

/-- The retry loop started at `retry = 0` with `retries` allowed
retries, as configured on the client. -/
def retryLoop (f : Nat → Attempt) (retries : Nat) : Nat × Attempt :=
  retryLoopGo f 0 retries

/-- Total number of HTTP attempts `makeRequest` issues against the
attempt oracle `f` with `retries` configured retries. -/
def attemptsMade (f : Nat → Attempt) (retries : Nat) : Nat :=
  (retryLoop f retries).1

/-- The attempt whose outcome `makeRequest` goes on to process. -/
def finalAttempt (f : Nat → Attempt) (retries : Nat) : Attempt :=
  (retryLoop f retries).2

/-- `LWSClient.makeRequest` after the loop: transport errors, empty and
unparseable bodies are errors; a parsed body is an error when the HTTP
status is at least 400 or the API code differs from 200, and a success
otherwise.  Returns the parsed (code, info) on success. -/
def makeRequest (f : Nat → Attempt) (retries : Nat) :
    Except String (Int × String) :=
  match finalAttempt f retries with
  | .transportErr m => .error ("error making HTTP request: " ++ m)
  | .httpResp status body =>
      match body with
      | .rawBody content =>
          if content = "" then
            .error ("API returned empty response (status " ++ toString status ++ ")")
          else
            .error ("error unmarshaling response (status " ++ toString status ++ ")")
      | .jsonBody code info =>
          if 400 ≤ status ∨ code ≠ 200 then
            .error ("API error (HTTP " ++ toString status ++ "): Code=" ++
              toString code ++ ", Info=" ++ info)
          else
            .ok (code, info)

/-- Whether an `Except` is an error. -/
def exceptIsError : Except String α → Bool
  | .error _ => true
  | .ok _ => false

/-- The retry count the provider's `Configure` installs by default. -/
def defaultRetries : Nat := 3

/-! ## Resource layer: `DNSRecordResource` -/

/-- A remote client call issued by a resource operation. -/
inductive RemoteCall where
  | getZoneCall (zone : String)
  | createCall (r : DNSRecord)
  | updateCall (r : DNSRecord)
deriving DecidableEq, Repr

/-- The calls that mutate remote state (create and update calls). -/
def mutationCalls (calls : List RemoteCall) : List RemoteCall :=
  calls.filter fun c =>
    match c with
    | .getZoneCall _ => false
    | _ => true

namespace DNSRecordResource

/-- Oracle responses for one run of `Create`: the initial zone fetch,
the update issued when a pre-existing match is found, the create call,
the conflict-recovery zone re-fetch, and the update issued on a
conflict-recovery match. -/
structure CreateEnv where
  zoneResp : Except String DNSZone
  updateResp : Except String DNSRecord
  createResp : Except String DNSRecord
  zoneResp2 : Except String DNSZone
  updateResp2 : Except String DNSRecord

/-- The non-fatal warning a successful `Create` may report. -/
inductive CreateWarning where
  | updatedExisting
  | adoptedExisting
deriving DecidableEq, Repr

/-- Outcome of `Create`: a fatal diagnostic (title and message), or a
saved record state together with at most one warning. -/
inductive CreateOutcome where
  | fatal (title msg : String)
  | created (st : RecordState) (warn : Option CreateWarning)
deriving DecidableEq, Repr

/-- The desired `client.DNSRecord` built by `Create` from the trimmed
plan fields (TTL defaults to 0 when null). -/
def mkDesiredRecord (plan : RecordState) : DNSRecord :=
  { id := 0, name := strTrim plan.name, type := strTrim plan.type,
    value := strTrim plan.value, ttl := plan.ttl.getD 0, zone := strTrim plan.zone }

/-- The fatal message `Create` reports when creation fails and no
existing record could be adopted; it carries the original creation
error `e`.  (The test-mode / API-details suffix, which only repeats
client configuration, is omitted.) -/
def createErrMsg (record : DNSRecord) (e : String) : String :=
  "Unable to create DNS record '" ++ record.name ++ "' in zone '" ++
    record.zone ++ "', got error: " ++ e

/-- The branch of `Create` taken when the initial search found
`existingRecord`: validate its identifier, then unconditionally issue an
update with the found identifier; on success save the plan data with the
updated identifier and TTL and warn that an existing record was
updated. -/
def createWithExisting (plan : RecordState) (env : CreateEnv)
    (record existingRecord : DNSRecord) (calls : List RemoteCall) :
    CreateOutcome × List RemoteCall :=
  if existingRecord.id ≤ 0 then
    (.fatal "Invalid Record ID"
      ("Found existing DNS record '" ++ record.name ++ "' of type '" ++
        record.type ++ "' but it has invalid ID: " ++ toString existingRecord.id ++
        ". Cannot update record with invalid ID."), calls)
  else
    let updateReq := { record with id := existingRecord.id }
    let calls := calls ++ [RemoteCall.updateCall updateReq]
    match env.updateResp with
    | .error e =>
        (.fatal "Client Error"
          ("Unable to update existing DNS record '" ++ record.name ++ "' (ID: " ++
            toString existingRecord.id ++ ") in zone '" ++ record.zone ++
            "', got error: " ++ e), calls)
    | .ok updatedRecord =>
        if updatedRecord.id ≤ 0 then
          (.fatal "Invalid Updated Record ID"
            ("Update operation returned invalid ID: " ++ toString updatedRecord.id ++
              " for record '" ++ record.name ++ "'. This indicates an API problem."),
            calls)
        else
          (.created
            { plan with id := toString updatedRecord.id, ttl := some updatedRecord.ttl }
            (some .updatedExisting), calls)

/-- The state `Read` (and `Update`) saves from a fetched record: all
fields refreshed from the record, except the zone which is the
caller-side `zoneName`. -/
def refreshFrom (record : DNSRecord) (zoneName : String) : RecordState :=
  { id := toString record.id, name := record.name, type := record.type,
    value := record.value, ttl := some record.ttl, zone := zoneName }

/-- The record the conflict-recovery fallback of `Create` adopts: when
the found record's value already equals the desired one it is adopted
as-is; otherwise an update is attempted first, a failed update still
adopting the found record unchanged. -/
def adoptedRecord (env : CreateEnv) (record existingRecord : DNSRecord) :
    DNSRecord :=
  if existingRecord.value != record.value then
    match env.updateResp2 with
    | .error _ => existingRecord
    | .ok u => u
  else existingRecord

/-- The remote mutation issued while adopting: exactly one update (with
the found identifier) when the values differ, and none otherwise. -/
def adoptionCalls (record existingRecord : DNSRecord) :
    List RemoteCall :=
  if existingRecord.value != record.value then
    [RemoteCall.updateCall { record with id := existingRecord.id }]
  else []

/-- The conflict-recovery fallback of `Create`: re-fetch the zone and
search once more (normalized or exact match); on a match adopt the
record, updating it first when the values differ (a failed update still
adopts the existing record); otherwise surface the original creation
error `e`. -/
def createConflictFallback (env : CreateEnv) (record : DNSRecord)
    (zoneName e : String) (calls : List RemoteCall) :
    CreateOutcome × List RemoteCall :=
  let calls := calls ++ [RemoteCall.getZoneCall zoneName]
  match env.zoneResp2 with
  | .error _ => (.fatal "Client Error" (createErrMsg record e), calls)
  | .ok zone2 =>
      match zone2.records.find? (fun er => conflictRecoveryMatch er record) with
      | none => (.fatal "Client Error" (createErrMsg record e), calls)
      | some existingRecord =>
          (.created
            (refreshFrom (adoptedRecord env record existingRecord) zoneName)
            (some .adoptedExisting),
            calls ++ adoptionCalls record existingRecord)

/-- The creation attempt of `Create` (after no pre-existing match was
acted on): issue the create call; on a conflict-classified failure run
the fallback search; on success validate the returned identifier and
save the created record with the caller's (trimmed) zone. -/
def createAttempt (env : CreateEnv) (record : DNSRecord)
    (zoneName : String) (calls : List RemoteCall) :
    CreateOutcome × List RemoteCall :=
  let calls := calls ++ [RemoteCall.createCall record]
  match env.createResp with
  | .error e =>
      if isConflictError e then
        createConflictFallback env record zoneName e calls
      else
        (.fatal "Client Error" (createErrMsg record e), calls)
  | .ok createdRecord =>
      if createdRecord.id ≤ 0 then
        (.fatal "Invalid Created Record ID"
          ("Create operation returned invalid ID: " ++ toString createdRecord.id ++
            " for record '" ++ record.name ++ "'. This indicates an API problem."),
          calls)
      else
        (.created
          { id := toString createdRecord.id, name := createdRecord.name,
            type := createdRecord.type, value := createdRecord.value,
            ttl := some createdRecord.ttl, zone := zoneName } none, calls)

/-- `DNSRecordResource.Create`: validate the trimmed plan fields, fetch
the zone (a failed fetch falls through to the creation attempt), search
it with the normalized identity comparison, and either act on the first
match (`createWithExisting`) or attempt creation (`createAttempt`). -/
def Create (plan : RecordState) (env : CreateEnv) :
    CreateOutcome × List RemoteCall :=
  let recordName := strTrim plan.name
  let recordType := strTrim plan.type
  let recordValue := strTrim plan.value
  let zoneName := strTrim plan.zone
  if recordName = "" then
    (.fatal "Validation Error" "DNS record name cannot be empty", [])
  else if recordType = "" then
    (.fatal "Validation Error" "DNS record type cannot be empty", [])
  else if recordValue = "" then
    (.fatal "Validation Error" "DNS record value cannot be empty", [])
  else if zoneName = "" then
    (.fatal "Validation Error" "DNS zone name cannot be empty", [])
  else
    let record := mkDesiredRecord plan
    let calls := [RemoteCall.getZoneCall zoneName]
    match env.zoneResp with
    | .error _ => createAttempt env record zoneName calls
    | .ok zone =>
        match zone.records.find? (fun er => nameTypeMatchNorm er record) with
        | some existingRecord => createWithExisting plan env record existingRecord calls
        | none => createAttempt env record zoneName calls

/-- Oracle responses for one run of `Read`: the direct
`GetDNSRecord` lookup and the zone fetch used by drift recovery. -/
structure ReadEnv where
  recordResp : Except String DNSRecord
  zoneResp : Except String DNSZone

/-- Outcome of `Read`: a fatal diagnostic, removal from state
(resource absent), or a refreshed record state. -/
inductive ReadOutcome where
  | fatal (title msg : String)
  | removed
  | refreshed (st : RecordState)
deriving DecidableEq, Repr

/-- The abbreviated fatal message of `Read` when the tracked state
carries no zone.  (The multi-line remediation text of the source, which
only explains how to re-import, is abbreviated.) -/
def missingZoneMsg (recordID recordName recordType : String) : String :=
  "DNS record zone information is missing from Terraform state. Record Details: Record ID: " ++
    recordID ++ ", Name: " ++ recordName ++ ", Type: " ++ recordType

/-- The drift-recovery search of `Read`: fetch the zone (a failed fetch
removes the resource from state), search it by exact name/type equality,
remove the resource when nothing matches, and otherwise adopt the found
record with the tracked zone preserved.  Both drift paths of `Read`
(invalid tracked identifier, and not-found direct lookup) run exactly
this. -/
def driftSearch (env : ReadEnv) (zoneName recordName recordType : String) :
    ReadOutcome :=
  match env.zoneResp with
  | .error _ => .removed
  | .ok zone =>
      match zone.records.find? (fun r => nameTypeMatchExact r recordName recordType) with
      | none => .removed
      | some foundRecord => .refreshed (refreshFrom foundRecord zoneName)

/-- `DNSRecordResource.Read`: an empty tracked zone is a fatal
missing-zone error; an invalid tracked identifier goes straight to
drift recovery; otherwise the record is fetched by identifier, a
not-found-classified failure falls back to drift recovery, any other
failure removes the resource from state, and a success refreshes all
fields with the zone preserved from state. -/
def Read (st : RecordState) (env : ReadEnv) : ReadOutcome :=
  let recordID := st.id
  let zoneName := st.zone
  let recordName := st.name
  let recordType := st.type
  if zoneName = "" then
    .fatal "Missing Zone Information" (missingZoneMsg recordID recordName recordType)
  else
    match goAtoi recordID with
    | none => driftSearch env zoneName recordName recordType
    | some recordIDInt =>
        if recordIDInt ≤ 0 then
          driftSearch env zoneName recordName recordType
        else
          match env.recordResp with
          | .ok record => .refreshed (refreshFrom record zoneName)
          | .error e =>
              if isReadNotFoundError e then
                driftSearch env zoneName recordName recordType
              else
                .removed

/-- Oracle response for one run of `Update`. -/
structure UpdateEnv where
  updateResp : Except String DNSRecord

/-- Outcome of `Update`. -/
inductive UpdateOutcome where
  | fatal (title msg : String)
  | updated (st : RecordState)
deriving DecidableEq, Repr

/-- `DNSRecordResource.Update`: validate the trimmed plan fields and the
identifier (must parse to a positive integer), issue the remote update,
and on success refresh all fields from the response except the zone,
which stays the caller's (trimmed) zone. -/
def Update (plan : RecordState) (env : UpdateEnv) : UpdateOutcome :=
  let recordID := strTrim plan.id
  let recordName := strTrim plan.name
  let recordType := strTrim plan.type
  let recordValue := strTrim plan.value
  let zoneName := strTrim plan.zone
  if recordID = "" then
    .fatal "Validation Error" "DNS record ID cannot be empty for update operation"
  else if recordName = "" then
    .fatal "Validation Error" "DNS record name cannot be empty"
  else if recordType = "" then
    .fatal "Validation Error" "DNS record type cannot be empty"
  else if recordValue = "" then
    .fatal "Validation Error" "DNS record value cannot be empty"
  else if zoneName = "" then
    .fatal "Validation Error" "DNS zone name cannot be empty"
  else
    match goAtoi recordID with
    | none =>
        .fatal "Invalid Record ID"
          ("Record ID '" ++ recordID ++ "' is not a valid integer")
    | some recordIDInt =>
        if recordIDInt ≤ 0 then
          .fatal "Invalid Record ID"
            ("Record ID must be a positive integer, got: " ++ toString recordIDInt)
        else
          match env.updateResp with
          | .error e =>
              .fatal "Client Error"
                ("Unable to update DNS record '" ++ recordName ++ "' (ID: " ++
                  toString recordIDInt ++ ") in zone '" ++ zoneName ++
                  "', got error: " ++ e)
          | .ok updatedRecord => .updated (refreshFrom updatedRecord zoneName)

/-- Oracle response for one run of `Delete`. -/
structure DeleteEnv where
  deleteResp : Except String Unit

/-- Outcome of `Delete`. -/
inductive DeleteOutcome where
  | fatal (title msg : String)
  | deleted
deriving DecidableEq, Repr

/-- The fatal message `Delete` reports when the remote delete call
fails; it names the identifier, record name/type and zone, and carries
the remote error. -/
def deleteErrMsg (recordIDInt : Int) (recordName recordType zoneName e : String) :
    String :=
  "Unable to delete DNS record ID " ++ toString recordIDInt ++ " ('" ++
    recordName ++ "' of type '" ++ recordType ++ "') in zone '" ++ zoneName ++
    "', got error: " ++ e

/-- `DNSRecordResource.Delete`: validate the trimmed identifier and
zone (identifier must parse to a positive integer), issue the remote
delete, and report any remote failure as a fatal client error — the
error message is not inspected. -/
def Delete (st : RecordState) (env : DeleteEnv) : DeleteOutcome :=
  let recordID := strTrim st.id
  let recordName := strTrim st.name
  let recordType := strTrim st.type
  let zoneName := strTrim st.zone
  if recordID = "" then
    .fatal "Validation Error" "DNS record ID cannot be empty for delete operation"
  else if zoneName = "" then
    .fatal "Validation Error" "DNS zone name cannot be empty for delete operation"
  else
    match goAtoi recordID with
    | none =>
        .fatal "Invalid Record ID"
          ("Record ID '" ++ recordID ++ "' is not a valid integer")
    | some recordIDInt =>
        if recordIDInt ≤ 0 then
          .fatal "Invalid Record ID"
            ("Record ID must be a positive integer, got: " ++ toString recordIDInt)
        else
          match env.deleteResp with
          | .error e =>
              .fatal "Client Error"
                (deleteErrMsg recordIDInt recordName recordType zoneName e)
          | .ok _ => .deleted

end DNSRecordResource

/-! ## Lemmas about the retry loop -/

/-- When every attempt fails, the loop uses its whole budget:
`budget + 1` attempts starting from attempt `retry`. -/
theorem retryLoopGo_fst_allFail (f : Nat → Attempt) (retry budget : Nat)
    (h : ∀ i, attemptOk (f i) = false) :
    (retryLoopGo f retry budget).1 = retry + budget + 1 := by
  induction budget generalizing retry with
  | zero => simp [retryLoopGo]
  | succ b ih =>
      simp only [retryLoopGo, h retry, Bool.false_eq_true, if_false, ih]
      omega

/-- The final attempt of the loop is the last attempt issued. -/
theorem retryLoopGo_snd (f : Nat → Attempt) (retry budget : Nat) :
    (retryLoopGo f retry budget).2 = f ((retryLoopGo f retry budget).1 - 1) := by
  induction budget generalizing retry with
  | zero => simp [retryLoopGo]
  | succ b ih =>
      by_cases h : attemptOk (f retry) = true
      · simp [retryLoopGo, h]
      · simp only [Bool.not_eq_true] at h
        simp [retryLoopGo, h, ih]

/-- Bounds on the number of attempts the loop issues. -/
theorem retryLoopGo_fst_bounds (f : Nat → Attempt) (retry budget : Nat) :
    retry + 1 ≤ (retryLoopGo f retry budget).1 ∧
      (retryLoopGo f retry budget).1 ≤ retry + budget + 1 := by
  induction budget generalizing retry with
  | zero => simp [retryLoopGo]
  | succ b ih =>
      by_cases h : attemptOk (f retry) = true
      · simp [retryLoopGo, h]
      · simp only [Bool.not_eq_true] at h
        simp only [retryLoopGo, h, Bool.false_eq_true, if_false]
        have := ih (retry + 1)
        omega

/-- Every attempt that was followed by another attempt had failed
(transport error, or HTTP status at least 400). -/
theorem retryLoopGo_only_failures (f : Nat → Attempt) (retry budget : Nat) :
    ∀ i, retry ≤ i → i + 1 < (retryLoopGo f retry budget).1 →
      attemptOk (f i) = false := by
  induction budget generalizing retry with
  | zero =>
      intro i hle hlt
      simp [retryLoopGo] at hlt
      omega
  | succ b ih =>
      intro i hle hlt
      by_cases h : attemptOk (f retry) = true
      · simp [retryLoopGo, h] at hlt
        omega
      · simp only [Bool.not_eq_true] at h
        simp only [retryLoopGo, h, Bool.false_eq_true, if_false] at hlt
        rcases Nat.eq_or_lt_of_le hle with rfl | hlt2
        · exact h
        · exact ih (retry + 1) i hlt2 hlt

/-- Every failed attempt with budget remaining was followed by another
attempt. -/
theorem retryLoopGo_failures_retried (f : Nat → Attempt) (retry budget : Nat) :
    ∀ i, retry ≤ i → i < (retryLoopGo f retry budget).1 →
      attemptOk (f i) = false → i < retry + budget →
      i + 1 < (retryLoopGo f retry budget).1 := by
  induction budget generalizing retry with
  | zero =>
      intro i _ _ _ hib
      omega
  | succ b ih =>
      intro i hle hin hfail hib
      by_cases h : attemptOk (f retry) = true
      · rcases Nat.eq_or_lt_of_le hle with rfl | hlt2
        · rw [h] at hfail; cases hfail
        · simp [retryLoopGo, h] at hin
          omega
      · simp only [Bool.not_eq_true] at h
        simp only [retryLoopGo, h, Bool.false_eq_true, if_false] at hin ⊢
        rcases Nat.eq_or_lt_of_le hle with rfl | hlt2
        · have := retryLoopGo_fst_bounds f (retry + 1) b
          omega
        · exact ih (retry + 1) i hlt2 hin hfail (by omega)

/-- The loop ends either because the final attempt succeeded or because
the retry budget was exhausted. -/
theorem retryLoopGo_termination_reason (f : Nat → Attempt) (retry budget : Nat) :
    attemptOk (retryLoopGo f retry budget).2 = true ∨
      (retryLoopGo f retry budget).1 = retry + budget + 1 := by
  induction budget generalizing retry with
  | zero => simp [retryLoopGo]
  | succ b ih =>
      by_cases h : attemptOk (f retry) = true
      · simp [retryLoopGo, h]
      · simp only [Bool.not_eq_true] at h
        simp only [retryLoopGo, h, Bool.false_eq_true, if_false]
        rcases ih (retry + 1) with hok | hcount
        · exact Or.inl hok
        · right; omega

/-- C7 (amended): in `makeRequest`'s retry loop a retry is triggered
exactly by a failed attempt — a transport error or an HTTP status of at
least 400, the response body never being consulted — while budget
remains.  Consequently a structurally valid error response delivered
with a status below 400 (`attemptOk` true) is never followed by another
attempt, and one delivered with a status of 400 or more is retried like
any transient failure. -/
theorem makeRequest_retry_trigger (f : Nat → Attempt) (retries : Nat) :
    (∀ i, i + 1 < attemptsMade f retries → attemptOk (f i) = false) ∧
    (∀ i, i < attemptsMade f retries → attemptOk (f i) = false → i < retries →
      i + 1 < attemptsMade f retries) ∧
    (attemptOk (finalAttempt f retries) = true ∨
      attemptsMade f retries = retries + 1) := by
  refine ⟨?_, ?_, ?_⟩
  · intro i hi
    exact retryLoopGo_only_failures f 0 retries i (Nat.zero_le i) hi
  · intro i hin hfail hib
    exact retryLoopGo_failures_retried f 0 retries i (Nat.zero_le i) hin hfail
      (by omega)
  · have := retryLoopGo_termination_reason f 0 retries
    simpa [attemptsMade, finalAttempt, retryLoop] using this

/-- Witness for the amended C7 theorem at a concrete loop: the first of
two attempts, a transport failure that was followed by a retry, is
classified as failed. -/
theorem makeRequest_retry_trigger_witness :
    attemptOk ((fun _ => Attempt.transportErr "timeout") 0) = false :=
  (makeRequest_retry_trigger (fun _ => Attempt.transportErr "timeout") 1).1 0
    (by decide)

/-- C7 counterexample: a structurally valid validation-error response —
parseable JSON body with API code 400 — delivered with HTTP status 400
is retried: with 3 configured retries the client issues 4 attempts
instead of stopping after the first. -/
theorem validErrorResponse_retried :
    attemptsMade
      (fun _ => Attempt.httpResp 400 (HttpBody.jsonBody 400 "Invalid record name"))
      3 = 4 ∧
    exceptIsError
      (makeRequest
        (fun _ => Attempt.httpResp 400 (HttpBody.jsonBody 400 "Invalid record name"))
        3) = true := by
  decide

/-- C8: against a remote that fails every attempt, `makeRequest` issues
exactly `retries + 1` attempts (one initial plus one per configured
retry) and then reports failure. -/
theorem makeRequest_retry_bound (f : Nat → Attempt) (retries : Nat)
    (h : ∀ i, attemptOk (f i) = false) :
    attemptsMade f retries = retries + 1 ∧
      exceptIsError (makeRequest f retries) = true := by
  constructor
  · simpa [attemptsMade, retryLoop] using retryLoopGo_fst_allFail f 0 retries h
  · have hfin : finalAttempt f retries = f (attemptsMade f retries - 1) := by
      simpa [attemptsMade, finalAttempt, retryLoop] using retryLoopGo_snd f 0 retries
    have hko : attemptOk (finalAttempt f retries) = false := by
      rw [hfin]; exact h _
    unfold makeRequest
    cases hF : finalAttempt f retries with
    | transportErr m => simp [exceptIsError]
    | httpResp status body =>
        rw [hF] at hko
        simp only [attemptOk, decide_eq_false_iff_not, Nat.not_lt] at hko
        cases body with
        | rawBody content =>
            by_cases hc : content = "" <;> simp [exceptIsError, hc]
        | jsonBody code info =>
            simp [exceptIsError, Or.inl hko]
/-- Witness for C8 with the default configuration of 3 retries and a
remote that always fails at transport level: exactly 4 attempts are
made and the request reports failure. -/
theorem makeRequest_retry_bound_witness :
    attemptsMade (fun _ => Attempt.transportErr "connection refused") defaultRetries =
        defaultRetries + 1 ∧
      exceptIsError
        (makeRequest (fun _ => Attempt.transportErr "connection refused")
          defaultRetries) = true :=
  makeRequest_retry_bound (fun _ => Attempt.transportErr "connection refused")
    defaultRetries (fun _ => rfl)

/-! ## Claims about the client operations -/

/-- C9: after every successful create response, `CreateDNSRecord`
performs the follow-up zone fetch and exact (name, type) search: a
failed fetch or a fruitless search fails the whole call even though the
record was created remotely, and on a match the returned identifier is
the one found by the search — the identifier echoed by the create
response (`echoed.id`, arbitrary here) is discarded. -/
theorem CreateDNSRecord_follow_up (record echoed : DNSRecord)
    (env : ClientCreateEnv) (hpost : env.postResp = .ok echoed) :
    (∀ e, env.zoneFetch = .error e →
      CreateDNSRecord record env =
        .error ("record was created but failed to retrieve its ID: " ++
          ("error getting DNS zone '" ++ record.zone ++ "': " ++ e))) ∧
    (∀ zone, env.zoneFetch = .ok zone →
      (zone.records.find? (fun r => nameTypeMatchExact r record.name record.type) = none →
        exceptIsError (CreateDNSRecord record env) = true) ∧
      (∀ found,
        zone.records.find? (fun r => nameTypeMatchExact r record.name record.type) = some found →
        CreateDNSRecord record env =
          .ok { echoed with zone := record.zone, id := found.id })) := by
  refine ⟨?_, ?_⟩
  · intro e he
    simp [CreateDNSRecord, hpost, findDNSRecordByName, he]
  · intro zone hz
    refine ⟨?_, ?_⟩
    · intro hnone
      simp [CreateDNSRecord, hpost, findDNSRecordByName, hz, hnone, exceptIsError]
    · intro found hfound
      simp [CreateDNSRecord, hpost, findDNSRecordByName, hz, hfound]

/-- The desired record of the C9 witness. -/
def c9Record : DNSRecord :=
  { id := 0, name := "www", type := "A", value := "192.0.2.1", ttl := 300,
    zone := "example.com" }

/-- The record echoed by the create response in the C9 witness: it
carries the bogus identifier 999. -/
def c9Echoed : DNSRecord :=
  { id := 999, name := "www", type := "A", value := "192.0.2.1", ttl := 300,
    zone := "" }

/-- The record found in the zone by the follow-up search in the C9
witness: identifier 42. -/
def c9Found : DNSRecord :=
  { id := 42, name := "www", type := "A", value := "192.0.2.1", ttl := 300,
    zone := "" }

/-- The oracle of the C9 witness. -/
def c9Env : ClientCreateEnv :=
  { postResp := .ok c9Echoed,
    zoneFetch := .ok { name := "example.com", records := [c9Found] } }

/-- Witness for C9: the create response echoes identifier 999, but the
identifier returned is 42, the one found by the follow-up search. -/
theorem CreateDNSRecord_follow_up_witness :
    CreateDNSRecord c9Record c9Env =
      .ok { c9Echoed with zone := c9Record.zone, id := c9Found.id } :=
  ((CreateDNSRecord_follow_up c9Record c9Echoed c9Env rfl).2
    { name := "example.com", records := [c9Found] } rfl).2 c9Found (by decide)

/-- C10: `GetDNSRecord` with an empty or non-numeric identifier string
silently coerces the identifier to 0 and searches the zone for a record
with identifier 0: without one it reports the not-found error (not a
validation error), and with one it returns that record as the match. -/
theorem GetDNSRecord_invalid_id (domain recordID : String) (zone : DNSZone)
    (h : recordID = "" ∨ goAtoi recordID = none) :
    (zone.records.find? (fun r => r.id == 0) = none →
      GetDNSRecord domain recordID (.ok zone) =
        .error ("record with ID " ++ recordID ++ " not found in domain " ++ domain)) ∧
    (∀ r, zone.records.find? (fun r => r.id == 0) = some r →
      GetDNSRecord domain recordID (.ok zone) = .ok { r with zone := domain }) := by
  have hid : (if recordID == "" then (0 : Int)
      else match goAtoi recordID with
        | some i => i
        | none => 0) = 0 := by
    rcases h with h | h
    · simp [h]
    · by_cases he : recordID = "" <;> simp [he, h]
  constructor
  · intro hnone
    simp only [GetDNSRecord, hid, hnone]
  · intro r hr
    simp only [GetDNSRecord, hid, hr]

/-- The zero-identifier record of the C10 witness. -/
def c10Ghost : DNSRecord :=
  { id := 0, name := "ghost", type := "TXT", value := "v", ttl := 60, zone := "" }

/-- Witness for C10 at a concrete zone that does contain a record with
identifier 0: the non-numeric identifier string `abc` is coerced to 0
and that record is returned as the match. -/
theorem GetDNSRecord_invalid_id_witness :
    GetDNSRecord "example.com" "abc"
      (.ok { name := "example.com", records := [c10Ghost] }) =
      .ok { c10Ghost with zone := "example.com" } :=
  (GetDNSRecord_invalid_id "example.com" "abc"
    { name := "example.com", records := [c10Ghost] }
    (Or.inr (by decide))).2 c10Ghost (by decide)

/-! ## Claim C2: deletion is not idempotent in the shipped code -/

/-- C2: at the failing input — tracked identifier 12345 for record
`www`/`A` in zone `example.com`, with the remote delete failing with
`Record not found` — `Delete` reports a fatal client error instead of
treating the deletion as successful with a non-fatal warning, as the
specification and the repository's own idempotent-deletion tests
require. -/
theorem Delete_notFound_is_fatal :
    DNSRecordResource.Delete
      { id := "12345", name := "www", type := "A", value := "192.0.2.1",
        ttl := some 3600, zone := "example.com" }
      { deleteResp := .error "Record not found" } =
    .fatal "Client Error"
      (DNSRecordResource.deleteErrMsg 12345 "www" "A" "example.com"
        "Record not found") := by
  decide

/-! ## Claim C6: identity normalization is not uniform across paths -/

/-- The `cname`-typed record stored remotely in the C6 counterexample. -/
def c6Stored : DNSRecord :=
  { id := 5, name := "www", type := "cname", value := "target.example.com.",
    ttl := 300, zone := "" }

/-- The `CNAME`-typed desired record of the C6 counterexample. -/
def c6Desired : DNSRecord :=
  { id := 0, name := "www", type := "CNAME", value := "target.example.com.",
    ttl := 300, zone := "example.com" }

/-- C6 counterexample: a record stored with type `cname` matches a
desired record of type `CNAME` under the normalized comparison used by
`Create`'s pre-search, but `Read`'s drift-recovery search — which
compares name and type by exact string equality — misses it and removes
the resource from state instead of adopting it. -/
theorem read_drift_search_not_normalized :
    nameTypeMatchNorm c6Stored c6Desired = true ∧
    DNSRecordResource.Read
      { id := "", name := "www", type := "CNAME", value := "target.example.com.",
        ttl := some 300, zone := "example.com" }
      { recordResp := .error "unused",
        zoneResp := .ok { name := "example.com", records := [c6Stored] } } =
      .removed := by
  decide

/-- C6 (amended): `Create`'s pre-search and its conflict-recovery
search agree everywhere — the conflict search's extra exact-equality
disjunct is subsumed by the normalized comparison — while the
drift-recovery searches in `Read` (and `findDNSRecordByName`) instead
use `nameTypeMatchExact`, plain string equality of name and type. -/
theorem conflictRecoveryMatch_eq_norm (existing target : DNSRecord) :
    conflictRecoveryMatch existing target = nameTypeMatchNorm existing target := by
  unfold conflictRecoveryMatch
  by_cases hx : (existing.name == target.name && existing.type == target.type) = true
  · have hand := (Bool.and_eq_true _ _).mp hx
    have hn : existing.name = target.name := eq_of_beq hand.1
    have ht : existing.type = target.type := eq_of_beq hand.2
    have hnorm : nameTypeMatchNorm existing target = true := by
      simp [nameTypeMatchNorm, hn, ht]
    simp [hx, hnorm]
  · simp only [Bool.not_eq_true] at hx
    simp [hx]

/-! ## Claim C1: the pre-search match always updates -/

namespace DNSRecordResource

/-- Behaviour of the found-existing branch of `Create` when the found
identifier is valid: exactly one update call is issued (whatever its
outcome), and a successful update with a valid identifier saves the plan
data with the returned identifier and TTL under the updated-existing
warning. -/
theorem createWithExisting_spec (plan : RecordState) (env : CreateEnv)
    (record existingRecord : DNSRecord) (calls : List RemoteCall)
    (hid : 0 < existingRecord.id) :
    (createWithExisting plan env record existingRecord calls).2 =
      calls ++ [RemoteCall.updateCall { record with id := existingRecord.id }] ∧
    (∀ u, env.updateResp = .ok u → 0 < u.id →
      (createWithExisting plan env record existingRecord calls).1 =
        .created { plan with id := toString u.id, ttl := some u.ttl }
          (some .updatedExisting)) := by
  have hneg : ¬ existingRecord.id ≤ 0 := by omega
  constructor
  · cases henv : env.updateResp with
    | error e => simp [createWithExisting, hneg, henv]
    | ok u =>
        by_cases hu : u.id ≤ 0 <;> simp [createWithExisting, hneg, henv, hu]
  · intro u hu hup
    have hneg2 : ¬ u.id ≤ 0 := by omega
    simp [createWithExisting, hneg, hu, hneg2]

/-- `Create` reduces to its found-existing branch once the initial zone
fetch succeeds and the normalized search finds a record. -/
theorem Create_eq_withExisting (plan : RecordState) (env : CreateEnv)
    (zone : DNSZone) (existingRecord : DNSRecord)
    (hn : strTrim plan.name ≠ "") (ht : strTrim plan.type ≠ "")
    (hv : strTrim plan.value ≠ "") (hz : strTrim plan.zone ≠ "")
    (hzone : env.zoneResp = .ok zone)
    (hfind : zone.records.find? (fun er => nameTypeMatchNorm er (mkDesiredRecord plan)) =
      some existingRecord) :
    Create plan env =
      createWithExisting plan env (mkDesiredRecord plan) existingRecord
        [RemoteCall.getZoneCall (strTrim plan.zone)] := by
  unfold Create
  simp only [if_neg hn, if_neg ht, if_neg hv, if_neg hz, hzone, hfind]

end DNSRecordResource

/-- The plan of the C1 counterexample: desired value `192.0.2.1`. -/
def c1xPlan : RecordState :=
  { id := "", name := "www", type := "A", value := "192.0.2.1", ttl := some 300,
    zone := "example.com" }

/-- The pre-existing record of the C1 counterexample: same name, type
and value as desired, identifier 7. -/
def c1xExisting : DNSRecord :=
  { id := 7, name := "www", type := "A", value := "192.0.2.1", ttl := 300,
    zone := "" }

/-- The oracle of the C1 counterexample: the zone fetch succeeds and the
zone contains exactly the identical record. -/
def c1xEnv : DNSRecordResource.CreateEnv :=
  { zoneResp := .ok { name := "example.com", records := [c1xExisting] },
    updateResp := .ok c1xExisting, createResp := .error "unused",
    zoneResp2 := .error "unused", updateResp2 := .error "unused" }

/-- C1 counterexample: the zone fetch succeeds and finds record 7 whose
value is identical to the desired one; the claim requires adoption with
no remote mutation, but `Create` issues an update call anyway and
reports the updated-existing warning, not the adoption warning. -/
theorem create_identical_value_still_updates :
    mutationCalls (DNSRecordResource.Create c1xPlan c1xEnv).2 =
      [RemoteCall.updateCall
        { id := 7, name := "www", type := "A", value := "192.0.2.1", ttl := 300,
          zone := "example.com" }] ∧
    (DNSRecordResource.Create c1xPlan c1xEnv).1 =
      .created
        { id := "7", name := "www", type := "A", value := "192.0.2.1",
          ttl := some 300, zone := "example.com" }
        (some .updatedExisting) := by
  decide

/-- C1 (amended): whenever the initial zone fetch succeeds and the
normalized search finds a record with a valid positive identifier,
`Create` issues exactly one remote mutation — an update with the found
identifier — whether or not the found value equals the desired one, and
a successful update returns the plan data under the found identifier
with the updated-existing (not adoption) warning; adoption without
mutation exists only in the conflict-recovery path. -/
theorem Create_found_existing_always_updates (plan : RecordState)
    (env : DNSRecordResource.CreateEnv) (zone : DNSZone) (existingRecord : DNSRecord)
    (hn : strTrim plan.name ≠ "") (ht : strTrim plan.type ≠ "")
    (hv : strTrim plan.value ≠ "") (hz : strTrim plan.zone ≠ "")
    (hzone : env.zoneResp = .ok zone)
    (hfind : zone.records.find?
      (fun er => nameTypeMatchNorm er (DNSRecordResource.mkDesiredRecord plan)) =
      some existingRecord)
    (hid : 0 < existingRecord.id) :
    mutationCalls (DNSRecordResource.Create plan env).2 =
      [RemoteCall.updateCall
        { DNSRecordResource.mkDesiredRecord plan with id := existingRecord.id }] ∧
    (∀ u, env.updateResp = .ok u → 0 < u.id →
      (DNSRecordResource.Create plan env).1 =
        .created { plan with id := toString u.id, ttl := some u.ttl }
          (some .updatedExisting)) := by
  have hred := DNSRecordResource.Create_eq_withExisting plan env zone existingRecord
    hn ht hv hz hzone hfind
  have hspec := DNSRecordResource.createWithExisting_spec plan env
    (DNSRecordResource.mkDesiredRecord plan) existingRecord
    [RemoteCall.getZoneCall (strTrim plan.zone)] hid
  rw [hred]
  refine ⟨?_, hspec.2⟩
  rw [hspec.1]
  simp [mutationCalls]

/-- The plan of the C1 witness: desired value `2.2.2.2`. -/
def c1wPlan : RecordState :=
  { id := "", name := "www", type := "A", value := "2.2.2.2", ttl := some 300,
    zone := "example.com" }

/-- The pre-existing record of the C1 witness: value `1.1.1.1`. -/
def c1wExisting : DNSRecord :=
  { id := 7, name := "www", type := "A", value := "1.1.1.1", ttl := 300,
    zone := "" }

/-- The record returned by the update call of the C1 witness. -/
def c1wUpdated : DNSRecord :=
  { id := 7, name := "www", type := "A", value := "2.2.2.2", ttl := 300,
    zone := "" }

/-- The oracle of the C1 witness. -/
def c1wEnv : DNSRecordResource.CreateEnv :=
  { zoneResp := .ok { name := "example.com", records := [c1wExisting] },
    updateResp := .ok c1wUpdated, createResp := .error "unused",
    zoneResp2 := .error "unused", updateResp2 := .error "unused" }

/-- Witness for the amended C1 theorem at a concrete differing-value
input: exactly one update call with the found identifier 7, and the
result is the plan data under identifier 7 with the updated-existing
warning. -/
theorem Create_found_existing_always_updates_witness :
    mutationCalls (DNSRecordResource.Create c1wPlan c1wEnv).2 =
      [RemoteCall.updateCall
        { DNSRecordResource.mkDesiredRecord c1wPlan with id := c1wExisting.id }] ∧
    (DNSRecordResource.Create c1wPlan c1wEnv).1 =
      .created { c1wPlan with id := toString c1wUpdated.id, ttl := some c1wUpdated.ttl }
        (some .updatedExisting) := by
  have h := Create_found_existing_always_updates c1wPlan c1wEnv
    { name := "example.com", records := [c1wExisting] } c1wExisting
    (by decide) (by decide) (by decide) (by decide) rfl (by decide) (by decide)
  exact ⟨h.1, h.2 c1wUpdated rfl (by decide)⟩

/-! ## Claim C3: conflict recovery and its phrase list -/

/-- The plan of the C3 counterexample. -/
def c3xPlan : RecordState :=
  { id := "", name := "www", type := "A", value := "192.0.2.1", ttl := some 300,
    zone := "example.com" }

/-- The matching record sitting in the re-fetched zone of the C3
counterexample; the claim expects it to be adopted. -/
def c3xExisting : DNSRecord :=
  { id := 7, name := "www", type := "A", value := "192.0.2.1", ttl := 300,
    zone := "" }

/-- The oracle of the C3 counterexample: the initial zone is empty, the
create call fails with `Invalid record` — a message containing the
claim's phrase `invalid record` but not the code's phrase
`record invalid` — and the zone re-fetch would reveal the record. -/
def c3xEnv : DNSRecordResource.CreateEnv :=
  { zoneResp := .ok { name := "example.com", records := [] },
    updateResp := .error "unused",
    createResp := .error "Invalid record",
    zoneResp2 := .ok { name := "example.com", records := [c3xExisting] },
    updateResp2 := .error "unused" }

/-- C3 counterexample: the creation error `Invalid record` contains the
claim's conflict phrase `invalid record` (case-insensitively), yet the
code's classifier rejects it, so `Create` surfaces the creation error
with no zone re-fetch (the trace holds a single zone fetch) and no
adoption, where the claim requires the recovery search to run and adopt
record 7. -/
theorem conflict_phrase_not_recovered :
    strContains (strToLower "Invalid record") "invalid record" = true ∧
    isConflictError "Invalid record" = false ∧
    DNSRecordResource.Create c3xPlan c3xEnv =
      (.fatal "Client Error"
        (DNSRecordResource.createErrMsg
          (DNSRecordResource.mkDesiredRecord c3xPlan) "Invalid record"),
       [RemoteCall.getZoneCall "example.com",
        RemoteCall.createCall (DNSRecordResource.mkDesiredRecord c3xPlan)]) := by
  decide

/-- C3 (amended): when no pre-existing match was found and the create
call fails with an error the code classifies as a conflict — containing
`cannot add record`, `record invalid`, `already exists` or `duplicate`,
case-insensitively (not the claim's `cannot add` / `invalid record`) —
the zone is re-fetched and the identity search repeated once; on a
second match the adopt-or-update branching is followed (adopt as-is on
equal values; update first, with the found identifier, on differing
values, a failed update still adopting), and with no second match or a
failed re-fetch the original creation error is surfaced. -/
theorem Create_conflict_recovery (plan : RecordState)
    (env : DNSRecordResource.CreateEnv) (zone : DNSZone) (e : String)
    (hn : strTrim plan.name ≠ "") (ht : strTrim plan.type ≠ "")
    (hv : strTrim plan.value ≠ "") (hz : strTrim plan.zone ≠ "")
    (hzone : env.zoneResp = .ok zone)
    (hnomatch : zone.records.find?
      (fun er => nameTypeMatchNorm er (DNSRecordResource.mkDesiredRecord plan)) = none)
    (hcreate : env.createResp = .error e)
    (hconf : isConflictError e = true) :
    (∀ e2, env.zoneResp2 = .error e2 →
      DNSRecordResource.Create plan env =
        (.fatal "Client Error"
          (DNSRecordResource.createErrMsg (DNSRecordResource.mkDesiredRecord plan) e),
         [RemoteCall.getZoneCall (strTrim plan.zone),
          RemoteCall.createCall (DNSRecordResource.mkDesiredRecord plan),
          RemoteCall.getZoneCall (strTrim plan.zone)])) ∧
    (∀ zone2, env.zoneResp2 = .ok zone2 →
      (zone2.records.find?
          (fun er => conflictRecoveryMatch er (DNSRecordResource.mkDesiredRecord plan)) =
          none →
        DNSRecordResource.Create plan env =
          (.fatal "Client Error"
            (DNSRecordResource.createErrMsg (DNSRecordResource.mkDesiredRecord plan) e),
           [RemoteCall.getZoneCall (strTrim plan.zone),
            RemoteCall.createCall (DNSRecordResource.mkDesiredRecord plan),
            RemoteCall.getZoneCall (strTrim plan.zone)])) ∧
      (∀ ex, zone2.records.find?
          (fun er => conflictRecoveryMatch er (DNSRecordResource.mkDesiredRecord plan)) =
          some ex →
        DNSRecordResource.Create plan env =
          (.created
            (DNSRecordResource.refreshFrom
              (DNSRecordResource.adoptedRecord env
                (DNSRecordResource.mkDesiredRecord plan) ex)
              (strTrim plan.zone))
            (some .adoptedExisting),
           [RemoteCall.getZoneCall (strTrim plan.zone),
            RemoteCall.createCall (DNSRecordResource.mkDesiredRecord plan),
            RemoteCall.getZoneCall (strTrim plan.zone)] ++
            DNSRecordResource.adoptionCalls
              (DNSRecordResource.mkDesiredRecord plan) ex))) ∧
    (∀ ex, ex.value = (DNSRecordResource.mkDesiredRecord plan).value →
      DNSRecordResource.adoptedRecord env (DNSRecordResource.mkDesiredRecord plan) ex = ex ∧
      DNSRecordResource.adoptionCalls (DNSRecordResource.mkDesiredRecord plan) ex = []) ∧
    (∀ ex u, ex.value ≠ (DNSRecordResource.mkDesiredRecord plan).value →
      env.updateResp2 = .ok u →
      DNSRecordResource.adoptedRecord env (DNSRecordResource.mkDesiredRecord plan) ex = u ∧
      DNSRecordResource.adoptionCalls (DNSRecordResource.mkDesiredRecord plan) ex =
        [RemoteCall.updateCall
          { DNSRecordResource.mkDesiredRecord plan with id := ex.id }]) := by
  have hred : DNSRecordResource.Create plan env =
      DNSRecordResource.createConflictFallback env
        (DNSRecordResource.mkDesiredRecord plan) (strTrim plan.zone) e
        [RemoteCall.getZoneCall (strTrim plan.zone),
         RemoteCall.createCall (DNSRecordResource.mkDesiredRecord plan)] := by
    unfold DNSRecordResource.Create DNSRecordResource.createAttempt
    simp [if_neg hn, if_neg ht, if_neg hv, if_neg hz, hzone, hnomatch, hcreate, hconf]
  refine ⟨?_, ?_, ?_, ?_⟩
  · intro e2 he2
    rw [hred]
    simp [DNSRecordResource.createConflictFallback, he2]
  · intro zone2 hz2
    constructor
    · intro hfind2
      rw [hred]
      simp [DNSRecordResource.createConflictFallback, hz2, hfind2]
    · intro ex hfind2
      rw [hred]
      simp [DNSRecordResource.createConflictFallback, hz2, hfind2]
  · intro ex hveq
    have hbne : (ex.value != (DNSRecordResource.mkDesiredRecord plan).value) = false := by
      simp [hveq]
    exact ⟨by simp [DNSRecordResource.adoptedRecord, hbne],
      by simp [DNSRecordResource.adoptionCalls, hbne]⟩
  · intro ex u hvne hu
    have hbne : (ex.value != (DNSRecordResource.mkDesiredRecord plan).value) = true := by
      simpa using hvne
    exact ⟨by simp [DNSRecordResource.adoptedRecord, hbne, hu],
      by simp [DNSRecordResource.adoptionCalls, hbne]⟩

/-- The plan of the C3 witness: desired value `2.2.2.2`. -/
def c3wPlan : RecordState :=
  { id := "", name := "www", type := "A", value := "2.2.2.2", ttl := some 300,
    zone := "example.com" }

/-- The record found by the conflict-recovery search of the C3 witness,
with the old value `1.1.1.1`. -/
def c3wExisting : DNSRecord :=
  { id := 7, name := "www", type := "A", value := "1.1.1.1", ttl := 300,
    zone := "" }

/-- The record returned by the recovery update of the C3 witness. -/
def c3wUpdated : DNSRecord :=
  { id := 7, name := "www", type := "A", value := "2.2.2.2", ttl := 300,
    zone := "" }

/-- The oracle of the C3 witness: empty initial zone, create fails with
`Record already exists`, and the re-fetched zone reveals record 7. -/
def c3wEnv : DNSRecordResource.CreateEnv :=
  { zoneResp := .ok { name := "example.com", records := [] },
    updateResp := .error "unused",
    createResp := .error "Record already exists",
    zoneResp2 := .ok { name := "example.com", records := [c3wExisting] },
    updateResp2 := .ok c3wUpdated }

/-- Witness for the amended C3 theorem: the conflict-classified create
failure triggers the re-fetch, the search finds record 7 and, the
values differing, it is updated and adopted. -/
theorem Create_conflict_recovery_witness :
    DNSRecordResource.Create c3wPlan c3wEnv =
      (.created
        (DNSRecordResource.refreshFrom
          (DNSRecordResource.adoptedRecord c3wEnv
            (DNSRecordResource.mkDesiredRecord c3wPlan) c3wExisting)
          (strTrim c3wPlan.zone))
        (some .adoptedExisting),
       [RemoteCall.getZoneCall (strTrim c3wPlan.zone),
        RemoteCall.createCall (DNSRecordResource.mkDesiredRecord c3wPlan),
        RemoteCall.getZoneCall (strTrim c3wPlan.zone)] ++
        DNSRecordResource.adoptionCalls
          (DNSRecordResource.mkDesiredRecord c3wPlan) c3wExisting) := by
  have h := Create_conflict_recovery c3wPlan c3wEnv
    { name := "example.com", records := [] } "Record already exists"
    (by decide) (by decide) (by decide) (by decide) rfl (by decide) rfl (by decide)
  exact ((h.2.1 { name := "example.com", records := [c3wExisting] } rfl).2
    c3wExisting (by decide))

/-! ## Claim C4: drift recovery in `Read` -/

/-- C4 counterexample: a tracked state with a missing identifier and an
empty tracked zone; the claim requires the zone to be fetched and
searched (here ending in resource-absent), but `Read` aborts with the
fatal missing-zone diagnostic before any lookup. -/
theorem read_empty_zone_fatal :
    DNSRecordResource.Read
      { id := "", name := "www", type := "A", value := "", ttl := none,
        zone := "" }
      { recordResp := .error "unused",
        zoneResp := .ok { name := "", records := [] } } =
      .fatal "Missing Zone Information"
        (DNSRecordResource.missingZoneMsg "" "www" "A") := by
  decide

/-- C4 (amended): provided the tracked zone is non-empty (an empty
tracked zone is a fatal missing-zone error raised before any lookup),
a `Read` whose tracked identifier is missing or non-positive, or whose
direct lookup fails with a not-found-classified error, fetches the full
zone and searches it by (name, type): on a match it returns the found
identifier and refreshed fields with the tracked zone preserved, and
with no match it signals resource-absent rather than an error. -/
theorem Read_drift_recovery (st : RecordState)
    (env : DNSRecordResource.ReadEnv) (hz : st.zone ≠ "")
    (hdrift : (match goAtoi st.id with
        | none => True
        | some i => i ≤ 0) ∨
      (∃ i e, goAtoi st.id = some i ∧ 0 < i ∧ env.recordResp = .error e ∧
        isReadNotFoundError e = true)) :
    ∀ zone, env.zoneResp = .ok zone →
      (zone.records.find? (fun r => nameTypeMatchExact r st.name st.type) = none →
        DNSRecordResource.Read st env = .removed) ∧
      (∀ found,
        zone.records.find? (fun r => nameTypeMatchExact r st.name st.type) =
          some found →
        DNSRecordResource.Read st env =
          .refreshed (DNSRecordResource.refreshFrom found st.zone)) := by
  have hred : DNSRecordResource.Read st env =
      DNSRecordResource.driftSearch env st.zone st.name st.type := by
    rcases hdrift with hinv | ⟨i, e, hgo, hpos, herr, hnf⟩
    · cases hgo : goAtoi st.id with
      | none => simp [DNSRecordResource.Read, hz, hgo]
      | some i =>
          rw [hgo] at hinv
          simp [DNSRecordResource.Read, hz, hgo, if_pos hinv]
    · have hneg : ¬ i ≤ 0 := by omega
      simp [DNSRecordResource.Read, hz, hgo, hneg, herr, hnf]
  intro zone hzone
  constructor
  · intro hnone
    rw [hred]
    simp [DNSRecordResource.driftSearch, hzone, hnone]
  · intro found hfound
    rw [hred]
    simp [DNSRecordResource.driftSearch, hzone, hfound]

/-- The tracked state of the C4 witness: identifier 10 that the remote
no longer knows. -/
def c4St : RecordState :=
  { id := "10", name := "api", type := "A", value := "192.0.2.7",
    ttl := some 300, zone := "example.com" }

/-- The record the zone search of the C4 witness finds: same name and
type now carried under identifier 42. -/
def c4Found : DNSRecord :=
  { id := 42, name := "api", type := "A", value := "192.0.2.8", ttl := 600,
    zone := "" }

/-- The oracle of the C4 witness: the direct lookup fails with the
client's not-found error, and the zone fetch reveals the record under
its new identifier. -/
def c4Env : DNSRecordResource.ReadEnv :=
  { recordResp := .error "record with ID 10 not found in domain example.com",
    zoneResp := .ok { name := "example.com", records := [c4Found] } }

/-- Witness for the amended C4 theorem: the drift round-trip — tracked
identifier 10, remote identifier 42 — ends with the found identifier
adopted and the zone preserved. -/
theorem Read_drift_recovery_witness :
    DNSRecordResource.Read c4St c4Env =
      .refreshed (DNSRecordResource.refreshFrom c4Found c4St.zone) := by
  have h := Read_drift_recovery c4St c4Env (by decide)
    (Or.inr ⟨10, "record with ID 10 not found in domain example.com",
      by decide, by decide, rfl, by decide⟩)
    { name := "example.com", records := [c4Found] } rfl
  exact h.2 c4Found (by decide)

/-! ## Claim C5: zone preservation -/

namespace DNSRecordResource

/-- Any record state produced by the conflict-recovery fallback carries
the caller-side zone name. -/
theorem createConflictFallback_zone (env : CreateEnv) (record : DNSRecord)
    (zoneName e : String) (calls : List RemoteCall) :
    ∀ st w, (createConflictFallback env record zoneName e calls).1 = .created st w →
      st.zone = zoneName := by
  intro st w h
  simp only [createConflictFallback] at h
  split at h
  · simp at h
  · split at h
    · simp at h
    · simp at h
      rw [← h.1]
      simp [refreshFrom]

/-- Any record state produced by the creation attempt carries the
caller-side zone name. -/
theorem createAttempt_zone (env : CreateEnv) (record : DNSRecord)
    (zoneName : String) (calls : List RemoteCall) :
    ∀ st w, (createAttempt env record zoneName calls).1 = .created st w →
      st.zone = zoneName := by
  intro st w h
  simp only [createAttempt] at h
  split at h
  · split at h
    · exact createConflictFallback_zone env record zoneName _ _ st w h
    · simp at h
  · split at h
    · simp at h
    · simp at h
      rw [← h.1]

/-- Any record state produced by the found-existing branch keeps the
plan's zone verbatim. -/
theorem createWithExisting_zone (plan : RecordState) (env : CreateEnv)
    (record existingRecord : DNSRecord) (calls : List RemoteCall) :
    ∀ st w, (createWithExisting plan env record existingRecord calls).1 =
        .created st w →
      st.zone = plan.zone := by
  intro st w h
  simp only [createWithExisting] at h
  split at h
  · simp at h
  · split at h
    · simp at h
    · split at h
      · simp at h
      · simp at h
        rw [← h.1]

/-- Any record state saved by `Create` carries the plan's zone, either
verbatim (found-existing branch) or trimmed (all creation branches). -/
theorem Create_zone (plan : RecordState) (env : CreateEnv) :
    ∀ st w, (Create plan env).1 = .created st w →
      st.zone = plan.zone ∨ st.zone = strTrim plan.zone := by
  intro st w h
  simp only [Create] at h
  split at h
  · simp at h
  · split at h
    · simp at h
    · split at h
      · simp at h
      · split at h
        · simp at h
        · split at h
          · exact Or.inr (createAttempt_zone env _ _ _ st w h)
          · split at h
            · exact Or.inl (createWithExisting_zone plan env _ _ _ st w h)
            · exact Or.inr (createAttempt_zone env _ _ _ st w h)

/-- Any record state saved by `Update` carries the plan's trimmed
zone. -/
theorem Update_zone (plan : RecordState) (env : UpdateEnv) :
    ∀ st, Update plan env = .updated st → st.zone = strTrim plan.zone := by
  intro st h
  simp only [Update] at h
  split at h
  · simp at h
  · split at h
    · simp at h
    · split at h
      · simp at h
      · split at h
        · simp at h
        · split at h
          · simp at h
          · split at h
            · simp at h
            · split at h
              · simp at h
              · split at h
                · simp at h
                · simp at h
                  rw [← h]
                  simp [refreshFrom]

/-- Any record state produced by the drift search carries the
caller-side zone name. -/
theorem driftSearch_zone (env : ReadEnv) (zoneName recordName recordType : String) :
    ∀ st, driftSearch env zoneName recordName recordType = .refreshed st →
      st.zone = zoneName := by
  intro st h
  simp only [driftSearch] at h
  split at h
  · simp at h
  · split at h
    · simp at h
    · simp at h
      rw [← h]
      simp [refreshFrom]

/-- Any record state saved by `Read` carries the tracked zone
verbatim. -/
theorem Read_zone (st0 : RecordState) (env : ReadEnv) :
    ∀ st, Read st0 env = .refreshed st → st.zone = st0.zone := by
  intro st h
  simp only [Read] at h
  split at h
  · simp at h
  · split at h
    · exact driftSearch_zone env _ _ _ st h
    · split at h
      · exact driftSearch_zone env _ _ _ st h
      · split at h
        · simp at h
          rw [← h]
          simp [refreshFrom]
        · split at h
          · exact driftSearch_zone env _ _ _ st h
          · simp at h

end DNSRecordResource

/-- The plan of the C5 counterexample, whose zone carries surrounding
whitespace. -/
def c5xPlan : RecordState :=
  { id := "", name := "www", type := "A", value := "192.0.2.1", ttl := some 300,
    zone := " example.com " }

/-- The record echoed by the successful create call of the C5
counterexample, carrying the unrelated zone `remote-echo.zone`. -/
def c5xEcho : DNSRecord :=
  { id := 9, name := "www", type := "A", value := "192.0.2.1", ttl := 300,
    zone := "remote-echo.zone" }

/-- The oracle of the C5 counterexample: the create call succeeds and
echoes an unrelated zone. -/
def c5xEnv : DNSRecordResource.CreateEnv :=
  { zoneResp := .ok { name := "example.com", records := [] },
    updateResp := .error "unused", createResp := .ok c5xEcho,
    zoneResp2 := .error "unused", updateResp2 := .error "unused" }

/-- C5 counterexample: with the caller-supplied zone ` example.com `
(surrounding whitespace), the record returned by `Create` carries the
trimmed zone `example.com`, which differs from the caller-supplied
string — so the returned zone does not equal the caller's zone verbatim
(it is also not the remote echo `remote-echo.zone`). -/
theorem create_zone_trimmed_not_verbatim :
    (DNSRecordResource.Create c5xPlan c5xEnv).1 =
      .created
        { id := "9", name := "www", type := "A", value := "192.0.2.1",
          ttl := some 300, zone := "example.com" } none ∧
    ("example.com" : String) ≠ c5xPlan.zone := by
  decide

/-- C5 (amended): every record state returned by `Create`, `Update` or
`Read` carries a zone computed solely from the caller's value — `Read`
and `Create`'s pre-existing-record update path return it verbatim, and
`Create`'s creation/adoption paths and `Update` return it trimmed of
leading/trailing whitespace; since the remote responses are universally
quantified here, no returned zone ever comes from the remote echo. -/
theorem zone_preservation (plan st0 : RecordState)
    (cenv : DNSRecordResource.CreateEnv) (uenv : DNSRecordResource.UpdateEnv)
    (renv : DNSRecordResource.ReadEnv) :
    (∀ st w, (DNSRecordResource.Create plan cenv).1 = .created st w →
      st.zone = plan.zone ∨ st.zone = strTrim plan.zone) ∧
    (∀ st, DNSRecordResource.Update plan uenv = .updated st →
      st.zone = strTrim plan.zone) ∧
    (∀ st, DNSRecordResource.Read st0 renv = .refreshed st →
      st.zone = st0.zone) :=
  ⟨DNSRecordResource.Create_zone plan cenv,
   DNSRecordResource.Update_zone plan uenv,
   DNSRecordResource.Read_zone st0 renv⟩

/-- The tracked state of the C5 witness. -/
def c5St : RecordState :=
  { id := "3", name := "www", type := "A", value := "v", ttl := some 60,
    zone := "example.com" }

/-- The record returned by the direct lookup of the C5 witness; its
echoed zone is unrelated to the tracked one. -/
def c5Rec : DNSRecord :=
  { id := 3, name := "www", type := "A", value := "v", ttl := 60,
    zone := "remote-says-other.zone" }

/-- The oracle of the C5 witness. -/
def c5REnv : DNSRecordResource.ReadEnv :=
  { recordResp := .ok c5Rec, zoneResp := .error "unused" }

/-- Witness for the C5 theorem on the `Read` component: the state
refreshed from a record whose echoed zone is `remote-says-other.zone`
still carries the tracked zone. -/
theorem zone_preservation_witness :
    (DNSRecordResource.refreshFrom c5Rec c5St.zone).zone = c5St.zone :=
  (zone_preservation c5St c5St
    { zoneResp := .error "u", updateResp := .error "u", createResp := .error "u",
      zoneResp2 := .error "u", updateResp2 := .error "u" }
    { updateResp := .error "u" } c5REnv).2.2
    (DNSRecordResource.refreshFrom c5Rec c5St.zone) (by decide)
